import Mathlib

/-!
Verification of the Tauri time/weather application backend
(`src-tauri/src/main.rs`) against its natural-language specification.

The Rust source is shallowly embedded: pure fragments become Lean
functions; the HTTP fetch becomes a function over an explicit outcome
value (transport result, status, JSON-parse result of the body); the
mutex-guarded notification flag becomes explicit state passing; the
scheduler's per-iteration arithmetic and firing decision become pure
functions of the sampled clock fields.  Rust `f64` parsing of the
temperature text is modelled by an abstract parser `String → Option ℚ`,
since the claims only concern the default-on-failure behaviour, not
float values.
-/

/-- `WeatherInfo` record from `main.rs` (`struct WeatherInfo`).
`temperature: f64` is modelled as `ℚ`. -/
structure WeatherInfo where
  description : String
  temperature : ℚ
  weather_code : String
  humidity : Int
  icon : String
deriving Repr, DecidableEq

/-- The arms of the `match weather_code.as_str() { ... }` inside
`fetch_weather_info` (main.rs lines 94-104), arm for arm in source
order, each arm given as its list of or-patterns and its result.  The
duplicated codes `"181"` (in both the `"09d"` and `"11d"` arms) and
`"160"` (in both the `"02d"` and `"13d"` arms) are kept exactly as in
the source. -/
def iconArms : List (List String × String) :=
  [(["100", "123", "124", "130", "131"], "01d"),
   (["101", "132", "140", "160", "170"], "02d"),
   (["102", "104", "115", "116", "141", "142"], "03d"),
   (["103", "106", "107", "108", "128", "143", "150"], "04d"),
   (["110", "111", "112", "113", "114", "118", "119", "125",
     "126", "127", "153", "154", "155", "181"], "09d"),
   (["117", "181"], "11d"),
   (["120", "121", "122", "156", "157", "160"], "13d")]

/-- A Rust `match` tries arms top to bottom and takes the first arm one
of whose patterns matches. -/
def firstMatch (code : String) : List (List String × String) → Option String
  | [] => none
  | arm :: rest => if code ∈ arm.1 then some arm.2 else firstMatch code rest

/-- The icon derivation of `fetch_weather_info` (main.rs lines 94-104):
first matching arm of `iconArms`, with the wildcard arm `_ => "50d"`. -/
def iconOfCode (code : String) : String :=
  (firstMatch code iconArms).getD "50d"

/-- The spec's bucket table (spec section 6), written from the spec's
words as a first-match cascade over the listed buckets in listed order,
with default `"50d"`.  Used only to compare against `iconOfCode`. -/
def spec_icon (code : String) : String :=
  if code ∈ ["100", "123", "124", "130", "131"] then "01d"
  else if code ∈ ["101", "132", "140", "160", "170"] then "02d"
  else if code ∈ ["102", "104", "115", "116", "141", "142"] then "03d"
  else if code ∈ ["103", "106", "107", "108", "128", "143", "150"] then "04d"
  else if code ∈ ["110", "111", "112", "113", "114", "118", "119", "125",
                  "126", "127", "153", "154", "155", "181"] then "09d"
  else if code ∈ ["117", "181"] then "11d"
  else if code ∈ ["120", "121", "122", "156", "157", "160"] then "13d"
  else "50d"

/-- All codes appearing in some bucket of the spec table. -/
def allBucketCodes : List String :=
  ["100", "123", "124", "130", "131",
   "101", "132", "140", "160", "170",
   "102", "104", "115", "116", "141", "142",
   "103", "106", "107", "108", "128", "143", "150",
   "110", "111", "112", "113", "114", "118", "119", "125",
   "126", "127", "153", "154", "155", "181",
   "117",
   "120", "121", "122", "156", "157"]

/-- The closed icon set of spec section 3 / section 6. -/
def iconSet : List String := ["01d", "02d", "03d", "04d", "09d", "11d", "13d", "50d"]

example : iconOfCode "160" = "02d" := by decide
example : iconOfCode "181" = "09d" := by decide
example : iconOfCode "999" = "50d" := by decide
example : spec_icon "181" = "09d" := by decide

/-! ## JSON values and the weather fetch

`serde_json::Value` is embedded as `Json`.  Immutable indexing on a
`Value` (`data[0]`, `data["timeSeries"]`) never panics: indexing a
non-array with a number, a non-object with a key, or out of bounds
yields `Null`. -/

/-- `serde_json::Value`. -/
inductive Json where
  | null : Json
  | bool (b : Bool) : Json
  | num (q : ℚ) : Json
  | str (s : String) : Json
  | arr (elems : List Json) : Json
  | obj (fields : List (String × Json)) : Json

/-- `value[i]` for `i: usize`: element of an array, `Null` if out of
bounds or not an array. -/
def Json.idx (j : Json) (i : Nat) : Json :=
  match j with
  | .arr elems => (elems.get? i).getD .null
  | _ => .null

/-- `value[k]` for a string key: field of an object, `Null` if the key
is missing or the value is not an object. -/
def Json.key (j : Json) (k : String) : Json :=
  match j with
  | .obj fields => ((fields.find? (fun f => f.1 == k)).map (fun f => f.2)).getD .null
  | _ => .null

/-- `Value::as_str`. -/
def Json.as_str (j : Json) : Option String :=
  match j with
  | .str s => some s
  | _ => none

/-- `let weather_data = &data[0]["timeSeries"][0]["areas"][0]`
(main.rs line 78). -/
def weather_data (data : Json) : Json :=
  (((data.idx 0).key "timeSeries").idx 0).key "areas" |>.idx 0

/-- `let temp_data = &data[0]["timeSeries"][2]["areas"][0]`
(main.rs line 87). -/
def temp_data (data : Json) : Json :=
  (((data.idx 0).key "timeSeries").idx 2).key "areas" |>.idx 0

/-- `fetch_weather_info`'s field extraction (main.rs lines 78-112): from
a parsed JSON document, read description / code / temperature
positionally with defaults, set `humidity = 50`, derive the icon.
`parseF64` stands in for Rust's `str::parse::<f64>`; only its
success/failure and its value at `"0"` matter to the claims. -/
def extract_weather (parseF64 : String → Option ℚ) (data : Json) : WeatherInfo :=
  let weather_code := (((weather_data data).key "weatherCodes").idx 0).as_str.getD ""
  let weather_description := (((weather_data data).key "weathers").idx 0).as_str.getD "不明"
  let temperature := (parseF64 ((((temp_data data).key "temps").idx 0).as_str.getD "0")).getD 0
  let humidity := 50
  { description := weather_description
    temperature := temperature
    weather_code := weather_code
    humidity := humidity
    icon := iconOfCode weather_code }

/-- The outcome of the GET request as `fetch_weather_info` observes it:
either the transport failed, or a response arrived with a status code
and a body, the body given by the result of parsing it as JSON
(`response.json::<serde_json::Value>()`). -/
inductive FetchOutcome where
  | transportErr (detail : String) : FetchOutcome
  | response (status : Nat) (body : Except String Json) : FetchOutcome

/-- The error taxonomy of `fetch_weather_info` (spec section 7).  The
Rust code surfaces these as formatted strings, prefixed
`ネットワークエラー: ` / `API呼び出しエラー: ` / `JSONパースエラー: `
respectively. -/
inductive FetchError where
  | networkError (detail : String) : FetchError
  | apiError (status : Nat) : FetchError
  | parseError (detail : String) : FetchError
deriving DecidableEq

/-- `reqwest::StatusCode::is_success`: 2xx. -/
def status_is_success (status : Nat) : Bool :=
  200 ≤ status && status ≤ 299

/-- `fetch_weather_info` (main.rs lines 72-122), as a function of the
request outcome. -/
def fetch_weather_info (parseF64 : String → Option ℚ) (o : FetchOutcome) :
    Except FetchError WeatherInfo :=
  match o with
  | .transportErr e => .error (.networkError e)
  | .response status body =>
    if status_is_success status then
      match body with
      | .ok data => .ok (extract_weather parseF64 data)
      | .error e => .error (.parseError e)
    else
      .error (.apiError status)

/-! ## Demo weather providers

Each demo command builds a fixed 3-element list of canned records and
returns `mock_weathers[(now.minute() % 3) as usize].clone()`.  Rust
vector indexing panics out of bounds; that is modelled by `Option`
(`none` for the panic), via `List.get?`. -/

/-- The Tokyo mock list (main.rs lines 184-206). -/
def tokyo_mock_weathers : List WeatherInfo :=
  [{ description := "晴れ", temperature := 45/2, weather_code := "100",
     humidity := 45, icon := "01d" },
   { description := "曇り", temperature := 183/10, weather_code := "110",
     humidity := 65, icon := "03d" },
   { description := "小雨", temperature := 79/5, weather_code := "120",
     humidity := 78, icon := "10d" }]

/-- The Fukuoka mock list (main.rs lines 220-242). -/
def fukuoka_mock_weathers : List WeatherInfo :=
  [{ description := "福岡 - 晴れ", temperature := 47/2, weather_code := "100",
     humidity := 42, icon := "01d" },
   { description := "福岡 - 曇り", temperature := 99/5, weather_code := "110",
     humidity := 60, icon := "03d" },
   { description := "福岡 - 小雨", temperature := 86/5, weather_code := "120",
     humidity := 75, icon := "10d" }]

/-- `get_tokyo_weather_demo` (main.rs lines 182-214) as a function of
the current wall-clock minute. -/
def get_tokyo_weather_demo (minute : Nat) : Option WeatherInfo :=
  tokyo_mock_weathers.get? (minute % 3)

/-- `get_fukuoka_weather_demo` (main.rs lines 218-250) as a function of
the current wall-clock minute. -/
def get_fukuoka_weather_demo (minute : Nat) : Option WeatherInfo :=
  fukuoka_mock_weathers.get? (minute % 3)

/-! ## Notification state store

The shared `Arc<Mutex<NotificationState>>` becomes explicit state
passing; the claims condition on lock acquisition succeeding, so the
`LockError` path (`map_err` on a poisoned mutex) is outside the state
function. -/

/-- `struct NotificationState` (main.rs lines 13-16). -/
structure NotificationState where
  enabled : Bool
deriving DecidableEq

/-- `toggle_notification` (main.rs lines 52-60): unconditionally
replaces the stored boolean.  Arguments in source order (state handle,
then `enabled`). -/
def toggle_notification (st : NotificationState) (enabled : Bool) : NotificationState :=
  { st with enabled := enabled }

/-- `get_notification_state` (main.rs lines 63-69): returns a copy of
the flag together with the (unchanged) state behind the lock. -/
def get_notification_state (st : NotificationState) : Bool × NotificationState :=
  (st.enabled, st)

/-- A finite sequence of `toggle_notification` calls applied in order. -/
def apply_toggles (st : NotificationState) (toggles : List Bool) : NotificationState :=
  toggles.foldl toggle_notification st

/-! ## Notification scheduler

One iteration of the background loop (main.rs lines 279-328) samples
the clock (`current_minute`, `current_second`), computes a wait,
sleeps, reads the flag, re-samples the clock and possibly notifies.
The arithmetic and the firing decision are embedded as pure functions
of the sampled values.  All arithmetic is Rust `u32`; the values stay
far below `2^32` (proved below), so `Nat` models it exactly, except
that `u32` subtraction would panic (debug) or wrap (release) on
underflow — claim C10 shows the subtrahend never exceeds the minuend,
so `Nat` truncated subtraction coincides with it. -/

/-- `minutes_to_next = 5 - (current_minute % 5)` (main.rs line 288). -/
def minutes_to_next (current_minute : Nat) : Nat :=
  5 - current_minute % 5

/-- `wait_millis` (main.rs lines 291-297). -/
def wait_millis (current_minute current_second : Nat) : Nat :=
  if minutes_to_next current_minute == 5 && current_second == 0 then
    0
  else
    (minutes_to_next current_minute * 60 - current_second) * 1000

/-- The actual sleep duration in milliseconds:
`wait_millis.max(1000)` (main.rs line 300). -/
def wait_duration_millis (current_minute current_second : Nat) : Nat :=
  (wait_millis current_minute current_second).max 1000

/-- What one scheduler iteration does after waking (main.rs lines
303-324): either emits one notification (title, body) or skips.  There
is no error outcome; a notification-send failure is discarded by the
source (`let _ = ...`). -/
inductive IterAction where
  | notify (title body : String) : IterAction
  | skip : IterAction
deriving DecidableEq

/-- The firing decision of one iteration, as a function of the flag
read after waking and of the re-sampled clock (minute and formatted
timestamp). -/
def scheduler_fire (is_enabled : Bool) (minute2 : Nat) (time_str : String) : IterAction :=
  if is_enabled then
    if minute2 % 5 == 0 then
      .notify "現在時刻（5分刻み）" ("現在の時刻は " ++ time_str ++ " です")
    else
      .skip
  else
    .skip

/-- Helper: the icon derivation agrees with the spec table read with
first-match precedence in listed order, on every code. -/
theorem iconOfCode_eq_spec_icon (code : String) : iconOfCode code = spec_icon code := by
  unfold iconOfCode firstMatch iconArms spec_icon
  split_ifs <;> simp_all [firstMatch]

/-- Helper: codes in no bucket map to `"50d"`. -/
theorem iconOfCode_default (code : String) (h : code ∉ allBucketCodes) :
    iconOfCode code = "50d" := by
  rw [iconOfCode_eq_spec_icon]
  unfold spec_icon
  simp only [allBucketCodes, List.mem_cons, List.not_mem_nil, or_false] at h
  push_neg at h
  split_ifs with h1 h2 h3 h4 h5 h6 h7 <;> simp_all

/-- Helper: every derived icon lies in the closed icon set. -/
theorem iconOfCode_mem_iconSet (code : String) : iconOfCode code ∈ iconSet := by
  rw [iconOfCode_eq_spec_icon]
  unfold spec_icon
  split_ifs <;> simp [iconSet]

/-- Helper: the icon field of an extracted record is the icon of its
code field. -/
theorem extract_weather_icon (parseF64 : String → Option ℚ) (data : Json) :
    (extract_weather parseF64 data).icon =
      iconOfCode (extract_weather parseF64 data).weather_code := rfl

/-- C1: the icon derived during a successful fetch equals the spec
section 6 bucket table evaluated with first-match precedence in the
listed order (01d, 02d, 03d, 04d, 09d, 11d, 13d); every code in no
bucket maps to `"50d"`; the duplicated codes resolve by first match:
`icon("160") = "02d"` and `icon("181") = "09d"`. -/
theorem C1_icon_bucket_table :
    (∀ code, iconOfCode code = spec_icon code) ∧
    (∀ parseF64 data,
      (extract_weather parseF64 data).icon =
        spec_icon (extract_weather parseF64 data).weather_code) ∧
    (∀ code, code ∉ allBucketCodes → iconOfCode code = "50d") ∧
    iconOfCode "160" = "02d" ∧ iconOfCode "181" = "09d" := by
  refine ⟨iconOfCode_eq_spec_icon, ?_, iconOfCode_default, by decide, by decide⟩
  intro parseF64 data
  rw [extract_weather_icon, iconOfCode_eq_spec_icon]

/-- C1 witness: the theorem applied at the unbucketed code `"999"`. -/
theorem C1_icon_bucket_table_witness : iconOfCode "999" = "50d" :=
  C1_icon_bucket_table.2.2.1 "999" (by decide)

/-- C4: for every current minute `m < 60` and second `s < 60`, the
scheduler's Waiting state computes `minutes_to_next = 5 - (m mod 5)`;
`wait_millis = 0` when `minutes_to_next = 5` and `s = 0`, otherwise
`(minutes_to_next*60 - s) * 1000` (exact over ℤ, no truncation); the
actual sleep is `max(wait_millis, 1000)`; at 12:03:00 the wait is
120000 ms, and at 12:05:00 the computed 0 is clamped to 1000 ms. -/
theorem C4_scheduler_wait (m s : Nat) (hm : m < 60) (hs : s < 60) :
    minutes_to_next m = 5 - m % 5 ∧
    wait_millis m s =
      (if minutes_to_next m = 5 ∧ s = 0 then 0
       else (minutes_to_next m * 60 - s) * 1000) ∧
    (wait_millis m s : ℤ) =
      (if 5 - m % 5 = 5 ∧ s = 0 then 0
       else ((5 - (m : ℤ) % 5) * 60 - (s : ℤ)) * 1000) ∧
    wait_duration_millis m s = max (wait_millis m s) 1000 ∧
    wait_duration_millis 3 0 = 120000 ∧
    wait_duration_millis 5 0 = 1000 := by
  refine ⟨rfl, ?_, ?_, rfl, by decide, by decide⟩
  · unfold wait_millis
    split_ifs <;> simp_all [minutes_to_next]
  · unfold wait_millis minutes_to_next
    split_ifs <;> simp_all <;> omega

/-- C4 witness: the theorem applied at 12:03:00. -/
theorem C4_scheduler_wait_witness : wait_duration_millis 3 0 = 120000 :=
  (C4_scheduler_wait 3 0 (by decide) (by decide)).2.2.2.2.1

/-- C10: for every current minute `m < 60` and second `s < 60`, the
subtrahend of `minutes_to_next*60 - current_second` never exceeds the
minuend (the u32 subtraction cannot wrap), and the clamped sleep
duration lies between 1000 and 300000 milliseconds inclusive. -/
theorem C10_scheduler_wait_bounds (m s : Nat) (hm : m < 60) (hs : s < 60) :
    s ≤ minutes_to_next m * 60 ∧
    1000 ≤ wait_duration_millis m s ∧
    wait_duration_millis m s ≤ 300000 := by
  unfold wait_duration_millis wait_millis minutes_to_next
  split_ifs <;> simp_all <;> omega

/-- C10 witness: the theorem applied at 12:59:59. -/
theorem C10_scheduler_wait_bounds_witness :
    59 ≤ minutes_to_next 59 * 60 ∧
    1000 ≤ wait_duration_millis 59 59 ∧
    wait_duration_millis 59 59 ≤ 300000 :=
  C10_scheduler_wait_bounds 59 59 (by decide) (by decide)

/-- C9: after any finite sequence of toggles, a get immediately after a
`toggle(b)` returns `b`, the stored state equals the last toggled
value, and get leaves the stored flag unchanged. -/
theorem C9_toggle_get_roundtrip (st : NotificationState) (toggles : List Bool) (b : Bool) :
    (get_notification_state (toggle_notification (apply_toggles st toggles) b)).1 = b ∧
    apply_toggles st (toggles ++ [b]) = toggle_notification (apply_toggles st toggles) b ∧
    (apply_toggles st (toggles ++ [b])).enabled = b ∧
    (∀ s, (get_notification_state s).2 = s) := by
  refine ⟨rfl, ?_, ?_, fun s => rfl⟩ <;>
    simp [apply_toggles, List.foldl_append, toggle_notification, get_notification_state]

/-- C5: the fetch fails with NetworkError exactly on transport failure,
with ApiError(status) exactly on a non-success status, with ParseError
exactly when a success-status body fails to parse as JSON, and in every
other case returns a WeatherInfo record (the extracted one). -/
theorem C5_fetch_error_taxonomy (parseF64 : String → Option ℚ) :
    (∀ e, fetch_weather_info parseF64 (.transportErr e) = .error (.networkError e)) ∧
    (∀ status body, status_is_success status = false →
      fetch_weather_info parseF64 (.response status body) = .error (.apiError status)) ∧
    (∀ status e, status_is_success status = true →
      fetch_weather_info parseF64 (.response status (.error e)) = .error (.parseError e)) ∧
    (∀ status data, status_is_success status = true →
      fetch_weather_info parseF64 (.response status (.ok data)) =
        .ok (extract_weather parseF64 data)) := by
  refine ⟨fun e => rfl, ?_, ?_, ?_⟩ <;>
    intro status x h <;> simp [fetch_weather_info, h]

/-- C5 witness: the theorem applied with a status-404 response. -/
theorem C5_fetch_error_taxonomy_witness :
    fetch_weather_info (fun _ => none) (.response 404 (.ok .null)) =
      .error (.apiError 404) :=
  (C5_fetch_error_taxonomy (fun _ => none)).2.1 404 (.ok .null) (by decide)

/-- C6: field extraction never fails: humidity is always the constant
50; an absent or unparseable temperature text yields temperature 0.0;
an absent description yields the default `"不明"`.  The hypothesis
`parseF64 "0" = some 0` records that Rust's `"0".parse::<f64>()`
succeeds with 0.0 (the absent-temperature path parses the fallback text
`"0"`). -/
theorem C6_defensive_extraction (parseF64 : String → Option ℚ) (data : Json)
    (h0 : parseF64 "0" = some 0) :
    (extract_weather parseF64 data).humidity = 50 ∧
    ((((temp_data data).key "temps").idx 0).as_str = none →
      (extract_weather parseF64 data).temperature = 0) ∧
    (∀ s, (((temp_data data).key "temps").idx 0).as_str = some s →
      parseF64 s = none → (extract_weather parseF64 data).temperature = 0) ∧
    ((((weather_data data).key "weathers").idx 0).as_str = none →
      (extract_weather parseF64 data).description = "不明") := by
  refine ⟨rfl, ?_, ?_, ?_⟩
  · intro h
    simp [extract_weather, h, h0]
  · intro s hs hp
    simp [extract_weather, hs, hp]
  · intro h
    simp [extract_weather, h]

/-- C6 witness: the theorem applied to the null document, whose
temperature text is absent. -/
theorem C6_defensive_extraction_witness :
    (extract_weather (fun s => if s = "0" then some 0 else none) .null).humidity = 50 ∧
    (extract_weather (fun s => if s = "0" then some 0 else none) .null).temperature = 0 :=
  ⟨(C6_defensive_extraction _ .null (by simp)).1,
   (C6_defensive_extraction _ .null (by simp)).2.1 rfl⟩

/-- C2 counterexample: a success-status response whose body is the
valid JSON document `{}` — which has no `timeSeries` field — does NOT
yield a ParseError: the fetch returns Ok with all defaults. -/
theorem C2_counterexample :
    fetch_weather_info (fun _ => none) (.response 200 (.ok (.obj []))) =
      .ok { description := "不明", temperature := 0, weather_code := "",
            humidity := 50, icon := "50d" } := rfl

/-- C2 amended: with a success status, ParseError arises exactly when
the body fails to parse as JSON text; a body that parses but lacks
`timeSeries` (that path is `Null`) does not error — the fetch returns
Ok with the default-filled record — and neither case panics. -/
theorem C2_parse_error_amended (parseF64 : String → Option ℚ) (status : Nat)
    (hs : status_is_success status = true) :
    (∀ e, fetch_weather_info parseF64 (.response status (.error e)) =
      .error (.parseError e)) ∧
    (∀ data, parseF64 "0" = some 0 → (data.idx 0).key "timeSeries" = .null →
      fetch_weather_info parseF64 (.response status (.ok data)) =
        .ok { description := "不明", temperature := 0, weather_code := "",
              humidity := 50, icon := "50d" }) := by
  constructor
  · intro e
    simp [fetch_weather_info, hs]
  · intro data h0 hnull
    have hext : extract_weather parseF64 data =
        { description := "不明", temperature := 0, weather_code := "",
          humidity := 50, icon := "50d" } := by
      unfold extract_weather weather_data temp_data
      rw [hnull]
      simp [Json.idx, Json.key, Json.as_str, h0]
      decide
    simp [fetch_weather_info, hs, hext]

/-- C2 amended witness: the theorem applied at status 200 with an
unparseable body and with the empty JSON object. -/
theorem C2_parse_error_amended_witness :
    fetch_weather_info (fun _ => none) (.response 200 (.error "expected value")) =
      .error (.parseError "expected value") ∧
    fetch_weather_info (fun s => if s = "0" then some 0 else none)
        (.response 200 (.ok (.obj []))) =
      .ok { description := "不明", temperature := 0, weather_code := "",
            humidity := 50, icon := "50d" } :=
  ⟨(C2_parse_error_amended (fun _ => none) 200 (by decide)).1 "expected value",
   (C2_parse_error_amended _ 200 (by decide)).2 (.obj []) (by simp) rfl⟩

/-- C7: one scheduler iteration notifies exactly when the flag read
after waking is true and the re-read minute is a multiple of 5; on a
false flag or a failed minute re-check it skips, and the iteration has
no error outcome. -/
theorem C7_scheduler_fire (is_enabled : Bool) (minute2 : Nat) (time_str : String) :
    ((∃ title body, scheduler_fire is_enabled minute2 time_str = .notify title body) ↔
      (is_enabled = true ∧ minute2 % 5 = 0)) ∧
    (is_enabled = true → minute2 % 5 = 0 →
      scheduler_fire is_enabled minute2 time_str =
        .notify "現在時刻（5分刻み）" ("現在の時刻は " ++ time_str ++ " です")) ∧
    (is_enabled = false ∨ minute2 % 5 ≠ 0 →
      scheduler_fire is_enabled minute2 time_str = .skip) := by
  unfold scheduler_fire
  by_cases he : is_enabled = true <;> by_cases hm : minute2 % 5 = 0 <;>
    simp_all

/-- C7 witness: the theorem applied with the flag enabled at minute
10. -/
theorem C7_scheduler_fire_witness :
    scheduler_fire true 10 "2026-10-12 00:10:00" =
      .notify "現在時刻（5分刻み）" ("現在の時刻は " ++ "2026-10-12 00:10:00" ++ " です") :=
  (C7_scheduler_fire true 10 "2026-10-12 00:10:00").2.1 rfl (by decide)

/-- Helper: demo results by the residue of the minute mod 3. -/
theorem tokyo_demo_cases (minute : Nat) :
    get_tokyo_weather_demo minute = some (tokyo_mock_weathers.get ⟨minute % 3, by
      simp [tokyo_mock_weathers]; omega⟩) := by
  have h3 : minute % 3 = 0 ∨ minute % 3 = 1 ∨ minute % 3 = 2 := by omega
  unfold get_tokyo_weather_demo
  rcases h3 with h3 | h3 | h3 <;> simp [h3, tokyo_mock_weathers]

/-- Helper: demo results by the residue of the minute mod 3 (Fukuoka). -/
theorem fukuoka_demo_cases (minute : Nat) :
    get_fukuoka_weather_demo minute = some (fukuoka_mock_weathers.get ⟨minute % 3, by
      simp [fukuoka_mock_weathers]; omega⟩) := by
  have h3 : minute % 3 = 0 ∨ minute % 3 = 1 ∨ minute % 3 = 2 := by omega
  unfold get_fukuoka_weather_demo
  rcases h3 with h3 | h3 | h3 <;> simp [h3, fukuoka_mock_weathers]

/-- C3 counterexample: at any minute with residue 2 (for example minute
2), the Tokyo demo provider returns a record whose icon is `"10d"`,
which is not in the closed icon set — so not every produced WeatherInfo
has an icon in that set. -/
theorem C3_counterexample :
    (get_tokyo_weather_demo 2).map WeatherInfo.icon = some "10d" ∧
    "10d" ∉ iconSet := by
  constructor
  · rfl
  · decide

/-- C3 amended: every WeatherInfo produced by a successful live fetch
has its icon in the closed set {01d, 02d, 03d, 04d, 09d, 11d, 13d,
50d}; the demo providers' icons come from {01d, 03d, 10d}, where the
third record's `"10d"` (returned when minute % 3 = 2) lies outside the
closed set. -/
theorem C3_icon_closed_set :
    (∀ parseF64 o w, fetch_weather_info parseF64 o = .ok w → w.icon ∈ iconSet) ∧
    (∀ minute w, get_tokyo_weather_demo minute = some w →
      w.icon ∈ ["01d", "03d", "10d"]) ∧
    (∀ minute w, get_fukuoka_weather_demo minute = some w →
      w.icon ∈ ["01d", "03d", "10d"]) := by
  refine ⟨?_, ?_, ?_⟩
  · intro parseF64 o w h
    rcases o with e | ⟨status, body⟩
    · simp [fetch_weather_info] at h
    · by_cases hs : status_is_success status
      · rcases body with e | data
        · simp [fetch_weather_info, hs] at h
        · simp [fetch_weather_info, hs] at h
          rw [← h, extract_weather_icon]
          exact iconOfCode_mem_iconSet _
      · simp [fetch_weather_info, hs] at h
  · intro minute w h
    rw [tokyo_demo_cases] at h
    have h3 : minute % 3 = 0 ∨ minute % 3 = 1 ∨ minute % 3 = 2 := by omega
    rcases h3 with h3 | h3 | h3 <;> simp_all [tokyo_mock_weathers] <;>
      simp [← h]
  · intro minute w h
    rw [fukuoka_demo_cases] at h
    have h3 : minute % 3 = 0 ∨ minute % 3 = 1 ∨ minute % 3 = 2 := by omega
    rcases h3 with h3 | h3 | h3 <;> simp_all [fukuoka_mock_weathers] <;>
      simp [← h]

/-- C3 amended witness: the theorem applied to a concrete successful
fetch of the null document and to the Tokyo demo at minute 0. -/
theorem C3_icon_closed_set_witness :
    (extract_weather (fun _ => none) .null).icon ∈ iconSet ∧
    ({ description := "晴れ", temperature := 45/2, weather_code := "100",
       humidity := 45, icon := "01d" } : WeatherInfo).icon ∈ ["01d", "03d", "10d"] :=
  ⟨C3_icon_closed_set.1 (fun _ => none) (.response 200 (.ok .null)) _ rfl,
   C3_icon_closed_set.2.1 0 _ rfl⟩

/-- C8: each demo provider returns the record at index (minute mod 3)
of its fixed 3-element list, is periodic with period 3 in the minute,
always succeeds, and is a pure function of the clock minute. -/
theorem C8_demo_cycle (minute : Nat) :
    get_tokyo_weather_demo minute = tokyo_mock_weathers.get? (minute % 3) ∧
    get_fukuoka_weather_demo minute = fukuoka_mock_weathers.get? (minute % 3) ∧
    tokyo_mock_weathers.length = 3 ∧
    fukuoka_mock_weathers.length = 3 ∧
    get_tokyo_weather_demo (minute + 3) = get_tokyo_weather_demo minute ∧
    get_fukuoka_weather_demo (minute + 3) = get_fukuoka_weather_demo minute ∧
    (get_tokyo_weather_demo minute).isSome = true ∧
    (get_fukuoka_weather_demo minute).isSome = true := by
  refine ⟨rfl, rfl, rfl, rfl, ?_, ?_, ?_, ?_⟩
  · unfold get_tokyo_weather_demo
    rw [Nat.add_mod_right]
  · unfold get_fukuoka_weather_demo
    rw [Nat.add_mod_right]
  · rw [tokyo_demo_cases]
    rfl
  · rw [fukuoka_demo_cases]
    rfl
